import Mathlib

/-!
Verification of the face-detection pipeline in
`src/opencvproject/opencvproject/main.cpp`.

The program is a single `FaceDetector` class driven by a synchronous loop.
External collaborators (camera capture, cascade detection, video encoding,
image writing, the filesystem) are modelled as inputs to the pure state
transition: a captured frame is represented by the detection sequence the
cascade would produce on it (`Option (List Rect)`, `none` meaning the read
returned an empty frame), and the filesystem relevant to
`getUniqueFilename` is a list of existing path names.

Machine arithmetic: `frameCounter` and `frameSkipCount` are C++ `int`s that
stay small and non-negative on every path the program reaches
(`frameCounter` is reset to 0 on every fully processed frame and the entry
point uses `speedUpFactor = 2`), so they are embedded as `Nat`.  The
`double` calibration constants and the distance computation are embedded as
`ℚ`; every concrete value the claims mention (14, 800, 112, 56) is exactly
representable in binary64, so the rational model agrees with the C++
doubles there.
-/

namespace FaceDetection

/-- `cv::Rect`: an axis-aligned rectangle.  Only `width` feeds the distance
estimate; the other fields are carried for faithfulness of the data model. -/
structure Rect where
  x : Int
  y : Int
  width : Nat
  height : Nat
deriving DecidableEq, Repr

/-- `FaceDetector::estimateDistance`:
`return (realFaceWidth * focalLength) / faceWidthInPixels;` -/
def estimateDistance (realFaceWidth focalLength : ℚ) (faceWidthInPixels : Nat) : ℚ :=
  (realFaceWidth * focalLength) / (faceWidthInPixels : ℚ)

/-- `stringstream << fixed << setprecision(2)`: fixed-point rendering with
two decimal places.  Embedded as rounding `q * 100` to the nearest integer;
the program only ever formats positive values, and no value the claims
mention sits at a rounding tie, so the tie-breaking convention is
immaterial here. -/
def formatFixed2 (q : ℚ) : String :=
  let c : Int := round (q * 100)
  let ip := c / 100
  let fp := (c % 100).natAbs
  toString ip ++ "." ++ (if fp < 10 then "0" else "") ++ toString fp

/-- `annotateFrame`, line 110:
`to_string(faces.size()) + " face" + (faces.size() > 1 ? "s" : "") + " found"`. -/
def summaryMessage (n : Nat) : String :=
  toString n ++ " face" ++ (if n > 1 then "s" else "") ++ " found"

/-- The per-face label drawn at the rectangle's top-left corner:
`"Face " + to_string(i + 1)` followed by `" Dist: " + ss.str() + " cm"`. -/
def faceLabel (realFaceWidth focalLength : ℚ) (i : Nat) (r : Rect) : String :=
  "Face " ++ toString (i + 1) ++ " Dist: " ++
    formatFixed2 (estimateDistance realFaceWidth focalLength r.width) ++ " cm"

/-- The candidate file names tried by `getUniqueFilename`:
`"faces/face_" + to_string(now) + ".jpg"` for the first attempt and
`"faces/face_" + to_string(now) + "_" + to_string(count) + ".jpg"` for the
retries. -/
def faceFilename (now : Nat) : Option Nat → String
  | none => "faces/face_" ++ toString now ++ ".jpg"
  | some c => "faces/face_" ++ toString now ++ "_" ++ toString c ++ ".jpg"

/-- The `while (filesystem::exists(newFilename))` loop of
`getUniqueFilename`, with the filesystem modelled as the list `existing` of
paths that exist.  The C++ loop has no bound; `fuel` makes the recursion
total, and `none` models the (unreachable on a finite filesystem) case of
running out of fuel while every tried candidate existed. -/
def findFreeName (existing : List String) (now : Nat) :
    String → Nat → Nat → Option String
  | cur, _, 0 => if cur ∈ existing then none else some cur
  | cur, count, fuel + 1 =>
    if cur ∈ existing then
      findFreeName existing now (faceFilename now (some count)) (count + 1) fuel
    else some cur

/-- `FaceDetector::getUniqueFilename`: start from the bare timestamped name
and retry with suffixes `_1`, `_2`, ... while the candidate exists. -/
def getUniqueFilename (existing : List String) (now : Nat) (fuel : Nat) :
    Option String :=
  findFreeName existing now (faceFilename now none) 1 fuel

/-- Result of `annotateFrame`: the updated saved-flag sequence, the indices
of the detection slots whose crop was written to disk this cycle, the
rectangles drawn, the per-face labels drawn, and the summary line. -/
structure AnnotateOut where
  newFlags : List Bool
  writtenSlots : List Nat
  boxes : List Rect
  labels : List String
  summary : String
deriving DecidableEq, Repr

/-- The `for (size_t i = 0; i < faces.size(); ++i)` loop of `annotateFrame`,
walking `faces` and `facesSaved` in lockstep with `i` the absolute slot
index.  Reading `facesSaved[i]` when `facesSaved` is shorter than `faces`
is out of bounds in the C++ (undefined behaviour), embedded as `none`;
`processFrame` resizes the flags before calling this, so that case is
proved unreachable below.  Flags beyond `faces.size()` are left untouched
by the loop. -/
def annotateLoop (realFaceWidth focalLength : ℚ) :
    List Rect → List Bool → Nat →
    Option (List Bool × List Nat × List Rect × List String)
  | [], flags, _ => some (flags, [], [], [])
  | _ :: _, [], _ => none
  | r :: rs, b :: bs, i =>
    match annotateLoop realFaceWidth focalLength rs bs (i + 1) with
    | none => none
    | some (flags, ws, boxes, labels) =>
      some (true :: flags,
            if b then ws else i :: ws,
            r :: boxes,
            faceLabel realFaceWidth focalLength i r :: labels)

/-- `FaceDetector::annotateFrame`: draw every box and label, write each
not-yet-saved crop once and mark it saved, and render the summary line. -/
def annotateFrame (realFaceWidth focalLength : ℚ) (faces : List Rect)
    (facesSaved : List Bool) : Option AnnotateOut :=
  match annotateLoop realFaceWidth focalLength faces facesSaved 0 with
  | none => none
  | some (flags, ws, boxes, labels) =>
    some ⟨flags, ws, boxes, labels, summaryMessage faces.length⟩

/-- The mutable fields of `FaceDetector` relevant to the claims, plus a
count of frames written to the video sink (observing `videoWriter.write`). -/
structure DetectorState where
  faces : List Rect
  facesSaved : List Bool
  frameCounter : Nat
  frameSkipCount : Nat
  focalLength : ℚ
  realFaceWidth : ℚ
  videoFramesWritten : Nat
deriving DecidableEq, Repr

/-- The fatal errors `processFrame` can raise: the `runtime_error` thrown on
an empty captured frame, and the out-of-bounds `facesSaved[i]` access
(undefined behaviour in C++, proved unreachable below). -/
inductive FDError where
  | captureFailed
  | indexOutOfBounds
deriving DecidableEq, Repr

/-- `std::vector<bool>::resize(n, false)`: keep the first `min(size, n)`
elements and value-initialize any new slots with `false`. -/
def resizeFill (l : List Bool) (n : Nat) (v : Bool) : List Bool :=
  l.take n ++ List.replicate (n - l.length) v

/-- What a single `processFrame` call produced, observably: whether the
frame was fully processed, the annotation outputs, and whether a frame was
written to the video sink. -/
structure CycleOutput where
  processed : Bool
  annotation : Option AnnotateOut
  videoWritten : Bool
deriving DecidableEq, Repr

/-- The output of a skipped cycle: `return` right after the counter
increment, before detection, annotation, or writing. -/
def skippedOut : CycleOutput :=
  { processed := false, annotation := none, videoWritten := false }

/-- The saved-flag sequence used by annotation on a fully processed cycle:
`if (facesSaved.size() != faces.size()) facesSaved.resize(faces.size(), false);`. -/
def cycleFlags (s : DetectorState) (detections : List Rect) : List Bool :=
  if s.facesSaved.length ≠ detections.length then
    resizeFill s.facesSaved detections.length false
  else s.facesSaved

/-- `FaceDetector::processFrame`.  The capture read is the input: `none` is
an empty frame (fatal `runtime_error`, thrown before any of the tracked
fields is touched — the error carries the state at the throw point).
Otherwise the counter is incremented; a cycle with
`counter % (skipCount + 1) != 0` returns at once, and a full cycle resets
the counter, stores the detections, resizes the flags on a count change,
annotates, and writes the frame to the video sink. -/
def processFrame (s : DetectorState) (capture : Option (List Rect)) :
    Except (FDError × DetectorState) (DetectorState × CycleOutput) :=
  match capture with
  | none => .error (.captureFailed, s)
  | some detections =>
    let c := s.frameCounter + 1
    if c % (s.frameSkipCount + 1) ≠ 0 then
      .ok ({ s with frameCounter := c }, skippedOut)
    else
      let flags := cycleFlags s detections
      match annotateFrame s.realFaceWidth s.focalLength detections flags with
      | none =>
        .error (.indexOutOfBounds,
          { s with frameCounter := 0, faces := detections, facesSaved := flags })
      | some out =>
        let s' : DetectorState :=
          { s with
            frameCounter := 0
            faces := detections
            facesSaved := out.newFlags
            videoFramesWritten := s.videoFramesWritten + 1 }
        .ok (s', { processed := true, annotation := some out, videoWritten := true })

/-- Iterating `processFrame` over a run of captures, collecting the
per-cycle outputs; the first fatal error aborts the run, as the top-level
loop lets any exception propagate. -/
def runCycles (s : DetectorState) :
    List (Option (List Rect)) →
    Except (FDError × DetectorState) (DetectorState × List CycleOutput)
  | [] => .ok (s, [])
  | inp :: rest =>
    match processFrame s inp with
    | .error e => .error e
    | .ok (s', out) =>
      match runCycles s' rest with
      | .error e => .error e
      | .ok (s'', outs) => .ok (s'', out :: outs)

/-- The slot indices whose crop is written by the annotation loop: exactly
the positions whose saved-flag is `false`, offset by the starting index. -/
def expectedWrites : List Bool → Nat → List Nat
  | [], _ => []
  | true :: bs, i => expectedWrites bs (i + 1)
  | false :: bs, i => i :: expectedWrites bs (i + 1)

/-- The labels drawn by the annotation loop, one per detected rectangle. -/
def expectedLabels (realFaceWidth focalLength : ℚ) : List Rect → Nat → List String
  | [], _ => []
  | r :: rs, i =>
    faceLabel realFaceWidth focalLength i r ::
      expectedLabels realFaceWidth focalLength rs (i + 1)

/-- The annotation produced by a fully processed cycle with detections `d`. -/
def procAnn (s : DetectorState) (d : List Rect) : AnnotateOut :=
  ⟨List.replicate d.length true,
   expectedWrites (cycleFlags s d) 0,
   d,
   expectedLabels s.realFaceWidth s.focalLength d 0,
   summaryMessage d.length⟩

/-- The detector state after a fully processed cycle with detections `d`. -/
def procState (s : DetectorState) (d : List Rect) : DetectorState :=
  { s with
    frameCounter := 0
    faces := d
    facesSaved := List.replicate d.length true
    videoFramesWritten := s.videoFramesWritten + 1 }

/-- The output of a fully processed cycle with detections `d`. -/
def procOutput (s : DetectorState) (d : List Rect) : CycleOutput :=
  { processed := true, annotation := some (procAnn s d), videoWritten := true }

theorem resizeFill_length (l : List Bool) (n : Nat) (v : Bool) :
    (resizeFill l n v).length = n := by
  simp [resizeFill]
  omega

theorem cycleFlags_length (s : DetectorState) (d : List Rect) :
    (cycleFlags s d).length = d.length := by
  unfold cycleFlags
  split
  · exact resizeFill_length ..
  · omega

theorem annotateLoop_spec (realFaceWidth focalLength : ℚ) :
    ∀ (faces : List Rect) (flags : List Bool) (i : Nat),
      flags.length = faces.length →
      annotateLoop realFaceWidth focalLength faces flags i =
        some (List.replicate faces.length true, expectedWrites flags i, faces,
              expectedLabels realFaceWidth focalLength faces i)
  | [], [], i, _ => by simp [annotateLoop, expectedWrites, expectedLabels]
  | [], _ :: _, i, h => by simp at h
  | _ :: _, [], i, h => by simp at h
  | r :: rs, b :: bs, i, h => by
    have ih := annotateLoop_spec realFaceWidth focalLength rs bs (i + 1) (by simpa using h)
    cases b <;>
      simp [annotateLoop, ih, expectedWrites, expectedLabels, List.replicate_succ]

theorem annotateFrame_spec (realFaceWidth focalLength : ℚ) (faces : List Rect)
    (flags : List Bool) (h : flags.length = faces.length) :
    annotateFrame realFaceWidth focalLength faces flags =
      some ⟨List.replicate faces.length true, expectedWrites flags 0, faces,
            expectedLabels realFaceWidth focalLength faces 0,
            summaryMessage faces.length⟩ := by
  simp [annotateFrame, annotateLoop_spec realFaceWidth focalLength faces flags 0 h]

theorem processFrame_skip (s : DetectorState) (d : List Rect)
    (h : (s.frameCounter + 1) % (s.frameSkipCount + 1) ≠ 0) :
    processFrame s (some d) =
      .ok ({ s with frameCounter := s.frameCounter + 1 }, skippedOut) := by
  simp [processFrame, h]

theorem processFrame_proc (s : DetectorState) (d : List Rect)
    (h : (s.frameCounter + 1) % (s.frameSkipCount + 1) = 0) :
    processFrame s (some d) = .ok (procState s d, procOutput s d) := by
  have hlen : (cycleFlags s d).length = d.length := cycleFlags_length s d
  simp [processFrame, h,
        annotateFrame_spec s.realFaceWidth s.focalLength d (cycleFlags s d) hlen,
        procState, procOutput, procAnn]

theorem mem_expectedWrites :
    ∀ (flags : List Bool) (i j : Nat),
      j ∈ expectedWrites flags i ↔ ∃ k, flags[k]? = some false ∧ j = i + k
  | [], i, j => by simp [expectedWrites]
  | true :: bs, i, j => by
    have ih := mem_expectedWrites bs (i + 1) j
    simp only [expectedWrites]
    rw [ih]
    constructor
    · rintro ⟨k, hk, rfl⟩
      exact ⟨k + 1, by simpa using hk, by omega⟩
    · rintro ⟨k, hk, rfl⟩
      match k, hk with
      | 0, hk => simp at hk
      | k + 1, hk => exact ⟨k, by simpa using hk, by omega⟩
  | false :: bs, i, j => by
    have ih := mem_expectedWrites bs (i + 1) j
    simp only [expectedWrites, List.mem_cons]
    rw [ih]
    constructor
    · rintro (rfl | ⟨k, hk, rfl⟩)
      · exact ⟨0, by simp, by omega⟩
      · exact ⟨k + 1, by simpa using hk, by omega⟩
    · rintro ⟨k, hk, rfl⟩
      match k, hk with
      | 0, _ => exact Or.inl (by omega)
      | k + 1, hk => exact Or.inr ⟨k, by simpa using hk, by omega⟩

theorem expectedWrites_ge (flags : List Bool) (i j : Nat)
    (h : j ∈ expectedWrites flags i) : i ≤ j := by
  rcases (mem_expectedWrites flags i j).1 h with ⟨k, -, rfl⟩
  omega

theorem expectedWrites_nodup : ∀ (flags : List Bool) (i : Nat),
    (expectedWrites flags i).Nodup
  | [], i => by simp [expectedWrites]
  | true :: bs, i => by
    simpa [expectedWrites] using expectedWrites_nodup bs (i + 1)
  | false :: bs, i => by
    have ih := expectedWrites_nodup bs (i + 1)
    simp only [expectedWrites, List.nodup_cons]
    refine ⟨fun hmem => ?_, ih⟩
    have := expectedWrites_ge bs (i + 1) i hmem
    omega

theorem expectedWrites_replicate_true : ∀ (n i : Nat),
    expectedWrites (List.replicate n true) i = []
  | 0, i => rfl
  | n + 1, i => by
    simp [List.replicate_succ, expectedWrites, expectedWrites_replicate_true n (i + 1)]

theorem expectedLabels_getElem? (realFaceWidth focalLength : ℚ) :
    ∀ (faces : List Rect) (i k : Nat),
      (expectedLabels realFaceWidth focalLength faces i)[k]? =
        (faces[k]?).map (fun r => faceLabel realFaceWidth focalLength (i + k) r)
  | [], i, k => by simp [expectedLabels]
  | r :: rs, i, 0 => by simp [expectedLabels]
  | r :: rs, i, k + 1 => by
    have ih := expectedLabels_getElem? realFaceWidth focalLength rs (i + 1) k
    simp only [expectedLabels, List.getElem?_cons_succ, ih]
    have : i + 1 + k = i + (k + 1) := by omega
    rw [this]

theorem findFreeName_not_mem :
    ∀ (fuel : Nat) (existing : List String) (now : Nat) (cur : String) (count : Nat)
      (nm : String),
      findFreeName existing now cur count fuel = some nm → nm ∉ existing
  | 0, existing, now, cur, count, nm => by
    intro h
    simp only [findFreeName] at h
    split at h
    · exact absurd h (by simp)
    · cases h
      assumption
  | fuel + 1, existing, now, cur, count, nm => by
    intro h
    simp only [findFreeName] at h
    split at h
    · exact findFreeName_not_mem fuel existing now _ _ nm h
    · cases h
      assumption

theorem findFreeName_shape :
    ∀ (fuel : Nat) (existing : List String) (now : Nat) (cur : String) (count : Nat)
      (nm : String),
      findFreeName existing now cur count fuel = some nm →
      nm = cur ∨ ∃ c, count ≤ c ∧ nm = faceFilename now (some c)
  | 0, existing, now, cur, count, nm => by
    intro h
    simp only [findFreeName] at h
    split at h
    · exact absurd h (by simp)
    · cases h
      exact Or.inl rfl
  | fuel + 1, existing, now, cur, count, nm => by
    intro h
    simp only [findFreeName] at h
    split at h
    · rcases findFreeName_shape fuel existing now _ _ nm h with h' | ⟨c, hc, h'⟩
      · exact Or.inr ⟨count, le_refl _, h'⟩
      · exact Or.inr ⟨c, by omega, h'⟩
    · cases h
      exact Or.inl rfl

theorem getUniqueFilename_spec (existing : List String) (now fuel : Nat) (nm : String)
    (h : getUniqueFilename existing now fuel = some nm) :
    nm ∉ existing ∧
      (nm = faceFilename now none ∨ ∃ c, 1 ≤ c ∧ nm = faceFilename now (some c)) :=
  ⟨findFreeName_not_mem fuel existing now _ 1 nm h,
   findFreeName_shape fuel existing now _ 1 nm h⟩

theorem runCycles_append (l₁ l₂ : List (Option (List Rect))) :
    ∀ s : DetectorState,
      runCycles s (l₁ ++ l₂) =
        match runCycles s l₁ with
        | .error e => .error e
        | .ok (s₁, o₁) =>
          match runCycles s₁ l₂ with
          | .error e => .error e
          | .ok (s₂, o₂) => .ok (s₂, o₁ ++ o₂) := by
  induction l₁ with
  | nil =>
    intro s
    simp only [List.nil_append, runCycles]
    cases runCycles s l₂ with
    | error e => rfl
    | ok p => rfl
  | cons inp rest ih =>
    intro s
    simp only [List.cons_append, runCycles]
    cases hp : processFrame s inp with
    | error e => rfl
    | ok p =>
      obtain ⟨s', out⟩ := p
      dsimp only
      simp only [List.append_eq]
      rw [ih s']
      cases hr : runCycles s' rest with
      | error e => rfl
      | ok q =>
        obtain ⟨s₁, o₁⟩ := q
        dsimp only
        cases hq : runCycles s₁ l₂ with
        | error e => rfl
        | ok w =>
          obtain ⟨s₂, o₂⟩ := w
          rfl

theorem runCycles_skipBlock :
    ∀ (k : Nat) (s : DetectorState) (d : List Rect),
      s.frameCounter + k ≤ s.frameSkipCount →
      runCycles s (List.replicate k (some d)) =
        .ok ({ s with frameCounter := s.frameCounter + k },
             List.replicate k skippedOut)
  | 0, s, d, _ => by simp [runCycles]
  | k + 1, s, d, h => by
    have hmod : (s.frameCounter + 1) % (s.frameSkipCount + 1) ≠ 0 := by
      have h1 : s.frameCounter + 1 < s.frameSkipCount + 1 := by omega
      rw [Nat.mod_eq_of_lt h1]
      omega
    have hstep := processFrame_skip s d hmod
    have ih := runCycles_skipBlock k { s with frameCounter := s.frameCounter + 1 } d
      (by simpa using by omega)
    simp only [List.replicate_succ, runCycles, hstep, ih]
    have : s.frameCounter + 1 + k = s.frameCounter + (k + 1) := by omega
    rw [this]

theorem processFrame_ok_cases (s : DetectorState) (d : List Rect)
    (s' : DetectorState) (out : CycleOutput)
    (h : processFrame s (some d) = .ok (s', out)) :
    ((s.frameCounter + 1) % (s.frameSkipCount + 1) ≠ 0 ∧
       s' = { s with frameCounter := s.frameCounter + 1 } ∧ out = skippedOut) ∨
    ((s.frameCounter + 1) % (s.frameSkipCount + 1) = 0 ∧
       s' = procState s d ∧ out = procOutput s d) := by
  by_cases hm : (s.frameCounter + 1) % (s.frameSkipCount + 1) = 0
  · rw [processFrame_proc s d hm] at h
    simp only [Except.ok.injEq, Prod.mk.injEq] at h
    exact Or.inr ⟨hm, h.1.symm, h.2.symm⟩
  · rw [processFrame_skip s d hm] at h
    simp only [Except.ok.injEq, Prod.mk.injEq] at h
    exact Or.inl ⟨hm, h.1.symm, h.2.symm⟩

theorem cycleFlags_of_length_eq (s : DetectorState) (d : List Rect)
    (h : s.facesSaved.length = d.length) : cycleFlags s d = s.facesSaved := by
  simp [cycleFlags, h]

theorem cycleFlags_of_length_ne (s : DetectorState) (d : List Rect)
    (h : s.facesSaved.length ≠ d.length) :
    cycleFlags s d = resizeFill s.facesSaved d.length false := by
  simp [cycleFlags, h]

theorem resizeFill_getElem?_retained (l : List Bool) (n : Nat) (v : Bool) (i : Nat)
    (h1 : i < l.length) (h2 : i < n) : (resizeFill l n v)[i]? = l[i]? := by
  unfold resizeFill
  have hlt : i < (l.take n).length := by
    simp only [List.length_take]
    omega
  rw [List.getElem?_append_left hlt, List.getElem?_take_of_lt h2]

theorem resizeFill_getElem?_new (l : List Bool) (n : Nat) (v : Bool) (i : Nat)
    (h1 : l.length ≤ i) (h2 : i < n) : (resizeFill l n v)[i]? = some v := by
  unfold resizeFill
  have hlen : (l.take n).length = l.length := by
    simp only [List.length_take]
    omega
  rw [List.getElem?_append_right (by omega), hlen, List.getElem?_replicate]
  have : i - l.length < n - l.length := by omega
  simp [this]

/-- A concrete detection 100 pixels wide, for witnesses. -/
def rectA : Rect := ⟨10, 10, 100, 100⟩

/-- A concrete detection 200 pixels wide, for witnesses. -/
def rectB : Rect := ⟨200, 10, 200, 200⟩

/-- A concrete detection 50 pixels wide, for witnesses. -/
def rectC : Rect := ⟨10, 300, 50, 50⟩

/-- A concrete detector state with the entry point's calibration constants
(focal length 800, reference width 14 cm), speed-up factor 1 (skip count 0),
and two tracked faces both already saved. -/
def exState : DetectorState :=
  { faces := [rectA, rectB], facesSaved := [true, true], frameCounter := 0,
    frameSkipCount := 0, focalLength := 800, realFaceWidth := 14,
    videoFramesWritten := 0 }

/-- The state `exState` reaches after fully processing a capture with the
three detections `[rectA, rectB, rectC]`. -/
def exState' : DetectorState :=
  { exState with
    faces := [rectA, rectB, rectC]
    facesSaved := [true, true, true]
    frameCounter := 0
    videoFramesWritten := 1 }

/-- The annotation produced in that cycle: slots 0 and 1 keep their saved
flags across the resize, so only slot 2 is written. -/
def exAnn : AnnotateOut :=
  ⟨[true, true, true], [2], [rectA, rectB, rectC],
   [faceLabel 14 800 0 rectA, faceLabel 14 800 1 rectB, faceLabel 14 800 2 rectC],
   summaryMessage 3⟩

/-- The cycle output produced by `exState` on that capture. -/
def exOut : CycleOutput :=
  { processed := true, annotation := some exAnn, videoWritten := true }

theorem exState_processFrame :
    processFrame exState (some [rectA, rectB, rectC]) = .ok (exState', exOut) := rfl

/-- C5: for every pixelWidth > 0, `estimateDistance` returns
`(referenceFaceWidth * focalLength) / pixelWidth`; in particular with
focal length 800 and real face width 14, pixel width 100 yields exactly
112 cm (formatted "112.00") and pixel width 200 yields exactly 56 cm
(formatted "56.00"). -/
theorem C5_estimateDistance_formula (realW focal : ℚ) (w : Nat) (_hw : 0 < w) :
    estimateDistance realW focal w = (realW * focal) / ((w : Nat) : ℚ) ∧
    estimateDistance 14 800 100 = 112 ∧
    formatFixed2 (estimateDistance 14 800 100) = "112.00" ∧
    estimateDistance 14 800 200 = 56 ∧
    formatFixed2 (estimateDistance 14 800 200) = "56.00" := by
  refine ⟨rfl, by norm_num [estimateDistance], ?_, by norm_num [estimateDistance], ?_⟩
  · have h1 : estimateDistance 14 800 100 = 112 := by norm_num [estimateDistance]
    have h2 : round ((112 : ℚ) * 100) = 11200 := by
      rw [round_eq]
      norm_num
    rw [h1]
    simp [formatFixed2, h2]
    decide
  · have h1 : estimateDistance 14 800 200 = 56 := by norm_num [estimateDistance]
    have h2 : round ((56 : ℚ) * 100) = 5600 := by
      rw [round_eq]
      norm_num
    rw [h1]
    simp [formatFixed2, h2]
    decide

/-- Witness for C5 at pixel width 100. -/
theorem C5_estimateDistance_formula_witness :
    0 < 100 ∧
    (estimateDistance 14 800 100 = (14 * 800) / ((100 : Nat) : ℚ) ∧
     estimateDistance 14 800 100 = 112 ∧
     formatFixed2 (estimateDistance 14 800 100) = "112.00" ∧
     estimateDistance 14 800 200 = 56 ∧
     formatFixed2 (estimateDistance 14 800 200) = "56.00") :=
  ⟨by decide, C5_estimateDistance_formula 14 800 100 (by decide)⟩

/-- C6: for fixed positive focal length and reference width,
`estimateDistance` is strictly decreasing in the pixel width: wider
detections are estimated closer. -/
theorem C6_estimateDistance_strictAnti (realW focal : ℚ) (a b : Nat)
    (hW : 0 < realW) (hF : 0 < focal) (ha : 0 < a) (hab : a < b) :
    estimateDistance realW focal a > estimateDistance realW focal b := by
  unfold estimateDistance
  have h1 : (0 : ℚ) < realW * focal := mul_pos hW hF
  have h2 : (0 : ℚ) < (a : ℚ) := by exact_mod_cast ha
  have h3 : (a : ℚ) < (b : ℚ) := by exact_mod_cast hab
  exact div_lt_div_of_pos_left h1 h2 h3

/-- Witness for C6 at pixel widths 100 < 200 with the entry point's
calibration constants. -/
theorem C6_estimateDistance_strictAnti_witness :
    (0 : ℚ) < 14 ∧ (0 : ℚ) < 800 ∧ 0 < 100 ∧ 100 < 200 ∧
    estimateDistance 14 800 100 > estimateDistance 14 800 200 :=
  ⟨by decide, by decide, by decide, by decide,
   C6_estimateDistance_strictAnti 14 800 100 200
     (by decide) (by decide) (by decide) (by decide)⟩

/-- C7: `processFrame` raises an error exactly when the capture read yields
an empty frame; the error is `CaptureFailed`, and the state at the throw
point — frame counter, detection set, saved flags, and the video-sink
write count — is the entry state, untouched. -/
theorem C7_captureFailed_iff_empty (s : DetectorState) (capture : Option (List Rect)) :
    ((∃ e s₁, processFrame s capture = .error (e, s₁)) ↔ capture = none) ∧
    processFrame s none = .error (.captureFailed, s) ∧
    (∀ e s₁, processFrame s capture = .error (e, s₁) →
      e = FDError.captureFailed ∧ s₁ = s) := by
  have hok : ∀ d e s₁, processFrame s (some d) ≠ .error (e, s₁) := by
    intro d e s₁ herr
    by_cases hm : (s.frameCounter + 1) % (s.frameSkipCount + 1) = 0
    · rw [processFrame_proc s d hm] at herr
      exact absurd herr (by simp)
    · rw [processFrame_skip s d hm] at herr
      exact absurd herr (by simp)
  refine ⟨⟨?_, ?_⟩, rfl, ?_⟩
  · rintro ⟨e, s₁, herr⟩
    cases capture with
    | none => rfl
    | some d => exact absurd herr (hok d e s₁)
  · rintro rfl
    exact ⟨.captureFailed, s, rfl⟩
  · intro e s₁ herr
    cases capture with
    | none =>
      simp only [processFrame, Except.error.injEq, Prod.mk.injEq] at herr
      exact ⟨herr.1.symm, herr.2.symm⟩
    | some d => exact absurd herr (hok d e s₁)

/-- C8: `getUniqueFilename` never returns the name of an existing file, its
result is the timestamped base name or the base name with a numeric
suffix, and two successive calls within the same wall-clock second — the
first followed by writing the returned file — return distinct names. -/
theorem C8_unique_filenames (existing : List String) (now fuel₁ fuel₂ : Nat)
    (n₁ n₂ : String)
    (h₁ : getUniqueFilename existing now fuel₁ = some n₁)
    (h₂ : getUniqueFilename (n₁ :: existing) now fuel₂ = some n₂) :
    n₁ ∉ existing ∧ n₂ ∉ existing ∧ n₁ ≠ n₂ ∧
    (n₁ = faceFilename now none ∨ ∃ c, 1 ≤ c ∧ n₁ = faceFilename now (some c)) := by
  obtain ⟨hn₁, hshape⟩ := getUniqueFilename_spec existing now fuel₁ n₁ h₁
  obtain ⟨hn₂, -⟩ := getUniqueFilename_spec (n₁ :: existing) now fuel₂ n₂ h₂
  refine ⟨hn₁, ?_, ?_, hshape⟩
  · exact fun hmem => hn₂ (List.mem_cons_of_mem _ hmem)
  · intro h
    exact hn₂ (h ▸ List.mem_cons_self n₁ existing)

/-- Witness for C8: with `faces/face_5.jpg` on disk, the first call returns
`faces/face_5_1.jpg` and, after that file is written, the second call in
the same second returns `faces/face_5_2.jpg`. -/
theorem C8_unique_filenames_witness :
    getUniqueFilename ["faces/face_5.jpg"] 5 10 = some "faces/face_5_1.jpg" ∧
    getUniqueFilename ["faces/face_5_1.jpg", "faces/face_5.jpg"] 5 10 =
      some "faces/face_5_2.jpg" ∧
    ("faces/face_5_1.jpg" ∉ ["faces/face_5.jpg"] ∧
     "faces/face_5_2.jpg" ∉ ["faces/face_5.jpg"] ∧
     "faces/face_5_1.jpg" ≠ "faces/face_5_2.jpg" ∧
     ("faces/face_5_1.jpg" = faceFilename 5 none ∨
      ∃ c, 1 ≤ c ∧ "faces/face_5_1.jpg" = faceFilename 5 (some c))) :=
  ⟨by decide, by decide,
   C8_unique_filenames ["faces/face_5.jpg"] 5 10 10
     "faces/face_5_1.jpg" "faces/face_5_2.jpg" (by decide) (by decide)⟩

/-- A concrete detector state with no faces tracked yet, speed-up factor 1. -/
def exState0 : DetectorState :=
  { faces := [], facesSaved := [], frameCounter := 0, frameSkipCount := 0,
    focalLength := 800, realFaceWidth := 14, videoFramesWritten := 0 }

/-- C1 counterexample: with two tracked faces both saved and a cycle
detecting three faces, the claim's full reset would make the flag sequence
`[false, false, false]` and re-write all three slots; the code's
`resize(3, false)` instead yields `[true, true, false]`, preserving the
flags at the two retained index positions across the size change, so only
slot 2 is written. -/
theorem C1_counterexample :
    cycleFlags exState [rectA, rectB, rectC] = [true, true, false] ∧
    cycleFlags exState [rectA, rectB, rectC] ≠ List.replicate 3 false ∧
    processFrame exState (some [rectA, rectB, rectC]) = .ok (exState', exOut) ∧
    exOut.annotation = some exAnn ∧
    exAnn.writtenSlots = [2] ∧
    exAnn.writtenSlots ≠ [0, 1, 2] :=
  ⟨by decide, by decide, exState_processFrame, rfl, by decide, by decide⟩

/-- C1 (amended): when the detection count differs from the saved-flag
sequence length, the sequence is resized to the new count; flags at
retained index positions are preserved even across the size change, and
only the newly created slots are initialized to "not saved"; the cycle's
disk writes are exactly the slots whose (resized) flag is false. -/
theorem C1_resize_preserves_retained (s : DetectorState) (d : List Rect)
    (s' : DetectorState) (out : CycleOutput)
    (hne : s.facesSaved.length ≠ d.length)
    (hrun : processFrame s (some d) = .ok (s', out))
    (hproc : out.processed = true) :
    out.annotation = some (procAnn s d) ∧
    cycleFlags s d = resizeFill s.facesSaved d.length false ∧
    (cycleFlags s d).length = d.length ∧
    (∀ i, i < s.facesSaved.length → i < d.length →
      (cycleFlags s d)[i]? = s.facesSaved[i]?) ∧
    (∀ i, s.facesSaved.length ≤ i → i < d.length →
      (cycleFlags s d)[i]? = some false) ∧
    (procAnn s d).writtenSlots = expectedWrites (cycleFlags s d) 0 := by
  rcases processFrame_ok_cases s d s' out hrun with ⟨-, -, hout⟩ | ⟨-, -, hout⟩
  · rw [hout] at hproc
    simp [skippedOut] at hproc
  · subst hout
    have hflags := cycleFlags_of_length_ne s d hne
    refine ⟨rfl, hflags, cycleFlags_length s d, ?_, ?_, rfl⟩
    · intro i h1 h2
      rw [hflags]
      exact resizeFill_getElem?_retained _ _ _ _ h1 h2
    · intro i h1 h2
      rw [hflags]
      exact resizeFill_getElem?_new _ _ _ _ h1 h2

/-- Witness for C1 (amended) at the 2 → 3 count change of the
counterexample state. -/
theorem C1_resize_preserves_retained_witness :
    exState.facesSaved.length ≠ [rectA, rectB, rectC].length ∧
    processFrame exState (some [rectA, rectB, rectC]) = .ok (exState', exOut) ∧
    exOut.processed = true ∧
    (exOut.annotation = some (procAnn exState [rectA, rectB, rectC]) ∧
     cycleFlags exState [rectA, rectB, rectC] =
       resizeFill exState.facesSaved [rectA, rectB, rectC].length false ∧
     (cycleFlags exState [rectA, rectB, rectC]).length =
       [rectA, rectB, rectC].length ∧
     (∀ i, i < exState.facesSaved.length → i < [rectA, rectB, rectC].length →
       (cycleFlags exState [rectA, rectB, rectC])[i]? = exState.facesSaved[i]?) ∧
     (∀ i, exState.facesSaved.length ≤ i → i < [rectA, rectB, rectC].length →
       (cycleFlags exState [rectA, rectB, rectC])[i]? = some false) ∧
     (procAnn exState [rectA, rectB, rectC]).writtenSlots =
       expectedWrites (cycleFlags exState [rectA, rectB, rectC]) 0) :=
  ⟨by decide, exState_processFrame, rfl,
   C1_resize_preserves_retained exState [rectA, rectB, rectC] exState' exOut
     (by decide) exState_processFrame rfl⟩

/-- C2 counterexample: a fully processed frame with zero detections renders
the summary "0 face found", not "0 faces found" — the `> 1` pluralization
test leaves the singular for a count of zero. -/
theorem C2_counterexample :
    processFrame exState0 (some []) =
      .ok ({ exState0 with videoFramesWritten := 1 },
           { processed := true,
             annotation := some ⟨[], [], [], [], summaryMessage 0⟩,
             videoWritten := true }) ∧
    summaryMessage 0 = "0 face found" ∧
    summaryMessage 0 ≠ "0 faces found" :=
  ⟨rfl, by decide, by decide⟩

/-- C2 (amended): the rendered summary line is the detection count followed
by " face found" or " faces found", pluralized exactly when the count
exceeds 1; 0 detections yield "0 face found" (not "0 faces found"),
1 yields "1 face found", 2 yield "2 faces found". -/
theorem C2_summary_pluralization (s : DetectorState) (d : List Rect)
    (s' : DetectorState) (out : CycleOutput) (ann : AnnotateOut)
    (hrun : processFrame s (some d) = .ok (s', out))
    (hann : out.annotation = some ann) :
    ann.summary = summaryMessage d.length ∧
    (∀ n : Nat, summaryMessage n =
      toString n ++ (if 1 < n then " faces found" else " face found")) ∧
    summaryMessage 0 = "0 face found" ∧
    summaryMessage 1 = "1 face found" ∧
    summaryMessage 2 = "2 faces found" := by
  have hplural : ∀ n : Nat, summaryMessage n =
      toString n ++ (if 1 < n then " faces found" else " face found") := by
    intro n
    unfold summaryMessage
    by_cases h : 1 < n
    · simp only [if_pos h, String.append_assoc]
      congr 1
    · simp only [if_neg h, String.append_assoc]
      congr 1
  rcases processFrame_ok_cases s d s' out hrun with ⟨-, -, hout⟩ | ⟨-, -, hout⟩
  · rw [hout] at hann
    simp [skippedOut] at hann
  · rw [hout] at hann
    simp only [procOutput, Option.some.injEq] at hann
    subst hann
    exact ⟨rfl, hplural, by decide, by decide, by decide⟩

/-- Witness for C2 (amended) on the three-face cycle. -/
theorem C2_summary_pluralization_witness :
    processFrame exState (some [rectA, rectB, rectC]) = .ok (exState', exOut) ∧
    exOut.annotation = some exAnn ∧
    (exAnn.summary = summaryMessage [rectA, rectB, rectC].length ∧
     (∀ n : Nat, summaryMessage n =
       toString n ++ (if 1 < n then " faces found" else " face found")) ∧
     summaryMessage 0 = "0 face found" ∧
     summaryMessage 1 = "1 face found" ∧
     summaryMessage 2 = "2 faces found") :=
  ⟨exState_processFrame, rfl,
   C2_summary_pluralization exState [rectA, rectB, rectC] exState' exOut exAnn
     exState_processFrame rfl⟩

/-- C9: after every completed `processFrame` call — skipped or fully
processed — the saved-flag length equals the detection-set length, and no
call ever raises the out-of-bounds flag access: every flag index the
annotation loop reads is in bounds. -/
theorem C9_flags_length_invariant (s : DetectorState) (capture : Option (List Rect))
    (s' : DetectorState) (out : CycleOutput)
    (hinv : s.facesSaved.length = s.faces.length)
    (hrun : processFrame s capture = .ok (s', out)) :
    s'.facesSaved.length = s'.faces.length ∧
    (∀ (s₂ : DetectorState) (c₂ : Option (List Rect)) (s₃ : DetectorState),
      processFrame s₂ c₂ ≠ .error (.indexOutOfBounds, s₃)) := by
  constructor
  · cases capture with
    | none => exact absurd hrun (by simp [processFrame])
    | some d =>
      rcases processFrame_ok_cases s d s' out hrun with ⟨-, hs, -⟩ | ⟨-, hs, -⟩
      · subst hs
        simpa using hinv
      · subst hs
        simp [procState]
  · intro s₂ c₂ s₃ herr
    cases c₂ with
    | none => simp [processFrame] at herr
    | some d₂ =>
      by_cases hm : (s₂.frameCounter + 1) % (s₂.frameSkipCount + 1) = 0
      · rw [processFrame_proc s₂ d₂ hm] at herr
        exact absurd herr (by simp)
      · rw [processFrame_skip s₂ d₂ hm] at herr
        exact absurd herr (by simp)

/-- Witness for C9 on the three-face cycle from a state whose invariant
holds (two flags, two tracked faces). -/
theorem C9_flags_length_invariant_witness :
    exState.facesSaved.length = exState.faces.length ∧
    processFrame exState (some [rectA, rectB, rectC]) = .ok (exState', exOut) ∧
    (exState'.facesSaved.length = exState'.faces.length ∧
     (∀ (s₂ : DetectorState) (c₂ : Option (List Rect)) (s₃ : DetectorState),
       processFrame s₂ c₂ ≠ .error (.indexOutOfBounds, s₃))) :=
  ⟨by decide, exState_processFrame,
   C9_flags_length_invariant exState (some [rectA, rectB, rectC]) exState' exOut
     (by decide) exState_processFrame⟩

/-- A concrete detector state tracking two faces, slot 0 already saved and
slot 1 not yet saved, with the detection count unchanged. -/
def exStateMix : DetectorState :=
  { faces := [rectA, rectB], facesSaved := [true, false], frameCounter := 0,
    frameSkipCount := 0, focalLength := 800, realFaceWidth := 14,
    videoFramesWritten := 0 }

/-- The state `exStateMix` reaches after fully processing a capture with
the same two detections. -/
def exStateMix' : DetectorState :=
  { exStateMix with
    facesSaved := [true, true]
    videoFramesWritten := 1 }

/-- The annotation of that cycle: only the unsaved slot 1 is written. -/
def exAnnMix : AnnotateOut :=
  ⟨[true, true], [1], [rectA, rectB],
   [faceLabel 14 800 0 rectA, faceLabel 14 800 1 rectB],
   summaryMessage 2⟩

/-- The cycle output produced by `exStateMix` on that capture. -/
def exOutMix : CycleOutput :=
  { processed := true, annotation := some exAnnMix, videoWritten := true }

theorem exStateMix_processFrame :
    processFrame exStateMix (some [rectA, rectB]) = .ok (exStateMix', exOutMix) := rfl

/-- C4: on a fully processed cycle whose detection count equals the tracked
flag count, an already-saved slot is not written again while its bounding
box and distance label are still drawn; an unsaved slot is written exactly
once, and its flag is true afterwards. -/
theorem C4_save_once (s : DetectorState) (d : List Rect)
    (s' : DetectorState) (out : CycleOutput) (ann : AnnotateOut)
    (i : Nat) (r : Rect)
    (hlen : s.facesSaved.length = d.length)
    (hrun : processFrame s (some d) = .ok (s', out))
    (hproc : out.processed = true)
    (hann : out.annotation = some ann)
    (hr : d[i]? = some r) :
    ann.boxes = d ∧
    ann.labels[i]? = some (faceLabel s.realFaceWidth s.focalLength i r) ∧
    (s.facesSaved[i]? = some true → i ∉ ann.writtenSlots) ∧
    (s.facesSaved[i]? = some false → ann.writtenSlots.count i = 1) ∧
    s'.facesSaved[i]? = some true := by
  rcases processFrame_ok_cases s d s' out hrun with ⟨-, -, hout⟩ | ⟨-, hs, hout⟩
  · rw [hout] at hproc
    simp [skippedOut] at hproc
  · subst hs
    rw [hout] at hann
    simp only [procOutput, Option.some.injEq] at hann
    subst hann
    have hflags : cycleFlags s d = s.facesSaved := cycleFlags_of_length_eq s d hlen
    have hi : i < d.length := by
      rcases List.getElem?_eq_some_iff.1 hr with ⟨h, -⟩
      exact h
    have hws : (procAnn s d).writtenSlots = expectedWrites s.facesSaved 0 := by
      show expectedWrites (cycleFlags s d) 0 = expectedWrites s.facesSaved 0
      rw [hflags]
    have hmem : i ∈ expectedWrites s.facesSaved 0 ↔ s.facesSaved[i]? = some false := by
      rw [mem_expectedWrites]
      constructor
      · rintro ⟨k, hk, hik⟩
        have : k = i := by omega
        subst this
        exact hk
      · intro h
        exact ⟨i, h, by omega⟩
    refine ⟨rfl, ?_, ?_, ?_, ?_⟩
    · show (expectedLabels s.realFaceWidth s.focalLength d 0)[i]? = _
      rw [expectedLabels_getElem?, hr]
      simp
    · intro hsaved
      rw [hws, hmem]
      simp [hsaved]
    · intro hunsaved
      rw [hws]
      exact List.count_eq_one_of_mem (expectedWrites_nodup _ 0) (hmem.2 hunsaved)
    · show (List.replicate d.length true)[i]? = some true
      simp [hi]

/-- Witness for C4 at slot 1 of the mixed-flag cycle: slot 1 was unsaved,
is written exactly once and is saved afterwards. -/
theorem C4_save_once_witness :
    exStateMix.facesSaved.length = [rectA, rectB].length ∧
    processFrame exStateMix (some [rectA, rectB]) = .ok (exStateMix', exOutMix) ∧
    exOutMix.processed = true ∧
    exOutMix.annotation = some exAnnMix ∧
    [rectA, rectB][1]? = some rectB ∧
    (exAnnMix.boxes = [rectA, rectB] ∧
     exAnnMix.labels[1]? =
       some (faceLabel exStateMix.realFaceWidth exStateMix.focalLength 1 rectB) ∧
     (exStateMix.facesSaved[1]? = some true → 1 ∉ exAnnMix.writtenSlots) ∧
     (exStateMix.facesSaved[1]? = some false → exAnnMix.writtenSlots.count 1 = 1) ∧
     exStateMix'.facesSaved[1]? = some true) :=
  ⟨by decide, exStateMix_processFrame, rfl, rfl, by decide,
   C4_save_once exStateMix [rectA, rectB] exStateMix' exOutMix exAnnMix 1 rectB
     (by decide) exStateMix_processFrame rfl rfl (by decide)⟩

/-- C10: after a fully processed cycle every entry of the saved-flag
sequence is true; within the cycle each slot is written at most once, and
a subsequent fully processed cycle with an unchanged detection count
writes no face images at all. -/
theorem C10_all_flags_true (s : DetectorState) (d : List Rect)
    (s' : DetectorState) (out : CycleOutput)
    (hrun : processFrame s (some d) = .ok (s', out))
    (hproc : out.processed = true) :
    s'.facesSaved = List.replicate d.length true ∧
    (∀ b ∈ s'.facesSaved, b = true) ∧
    (∃ ann, out.annotation = some ann ∧ ann.writtenSlots.Nodup) ∧
    (∀ (d₂ : List Rect) (s'' : DetectorState) (out₂ : CycleOutput),
      d₂.length = d.length →
      processFrame s' (some d₂) = .ok (s'', out₂) →
      out₂.processed = true →
      out₂.annotation = some (procAnn s' d₂) ∧
        (procAnn s' d₂).writtenSlots = []) := by
  rcases processFrame_ok_cases s d s' out hrun with ⟨-, -, hout⟩ | ⟨-, hs, hout⟩
  · rw [hout] at hproc
    simp [skippedOut] at hproc
  · subst hs
    subst hout
    refine ⟨rfl, ?_, ⟨procAnn s d, rfl, expectedWrites_nodup _ 0⟩, ?_⟩
    · intro b hb
      have : b ∈ List.replicate d.length true := hb
      exact (List.mem_replicate.1 this).2
    · intro d₂ s'' out₂ hlen₂ hrun₂ hproc₂
      have hflagsLen : (procState s d).facesSaved.length = d₂.length := by
        simp [procState, hlen₂]
      have hflags₂ : cycleFlags (procState s d) d₂ = (procState s d).facesSaved :=
        cycleFlags_of_length_eq _ _ hflagsLen
      rcases processFrame_ok_cases (procState s d) d₂ s'' out₂ hrun₂ with
        ⟨-, -, ho⟩ | ⟨-, -, ho⟩
      · rw [ho] at hproc₂
        simp [skippedOut] at hproc₂
      · subst ho
        refine ⟨rfl, ?_⟩
        show expectedWrites (cycleFlags (procState s d) d₂) 0 = []
        rw [hflags₂]
        exact expectedWrites_replicate_true d.length 0

/-- Witness for C10 on the mixed-flag cycle. -/
theorem C10_all_flags_true_witness :
    processFrame exStateMix (some [rectA, rectB]) = .ok (exStateMix', exOutMix) ∧
    exOutMix.processed = true ∧
    (exStateMix'.facesSaved = List.replicate [rectA, rectB].length true ∧
     (∀ b ∈ exStateMix'.facesSaved, b = true) ∧
     (∃ ann, exOutMix.annotation = some ann ∧ ann.writtenSlots.Nodup) ∧
     (∀ (d₂ : List Rect) (s'' : DetectorState) (out₂ : CycleOutput),
       d₂.length = [rectA, rectB].length →
       processFrame exStateMix' (some d₂) = .ok (s'', out₂) →
       out₂.processed = true →
       out₂.annotation = some (procAnn exStateMix' d₂) ∧
         (procAnn exStateMix' d₂).writtenSlots = [])) :=
  ⟨exStateMix_processFrame, rfl,
   C10_all_flags_true exStateMix [rectA, rectB] exStateMix' exOutMix
     exStateMix_processFrame rfl⟩

/-- The per-cycle outputs of one full block of `f` captures starting from
frame counter 0: `f - 1` skipped cycles followed by one fully processed
cycle. -/
def blockOuts (f : Nat) (d : List Rect) (s : DetectorState) : List CycleOutput :=
  List.replicate (f - 1) skippedOut ++
    [procOutput { s with frameCounter := f - 1 } d]

/-- C3's property for speed-up factor `f`, detections `d`, initial state
`s`: over `f` consecutive captures exactly one — the last — is fully
processed (detection, annotation, video write), the first `f - 1` return
right after incrementing the counter without resetting it, and the
processed cycle resets the counter to 0. -/
def OneInEveryF (f : Nat) (d : List Rect) (s : DetectorState) : Prop :=
  runCycles s (List.replicate f (some d)) =
    .ok (procState { s with frameCounter := f - 1 } d, blockOuts f d s) ∧
  ((blockOuts f d s).filter (fun o => o.processed)).length = 1 ∧
  (∀ k, k + 1 < f → (blockOuts f d s)[k]? = some skippedOut) ∧
  (blockOuts f d s)[f - 1]? =
    some (procOutput { s with frameCounter := f - 1 } d) ∧
  skippedOut.processed = false ∧
  (procOutput { s with frameCounter := f - 1 } d).processed = true ∧
  (procOutput { s with frameCounter := f - 1 } d).videoWritten = true ∧
  (procState { s with frameCounter := f - 1 } d).frameCounter = 0 ∧
  (∀ c, (c + 1) % f ≠ 0 →
    processFrame { s with frameCounter := c } (some d) =
      .ok ({ s with frameCounter := c + 1 }, skippedOut))

/-- C3: for every speed-up factor f ≥ 1 (stored as skip count f - 1) and a
run of f raw captures starting from frame counter 0, exactly 1 of the f
frames undergoes full processing; the other f - 1 return immediately after
incrementing the counter without resetting it, and the processed frame
resets the counter to 0. -/
theorem C3_one_in_every_f (f : Nat) (d : List Rect) (s : DetectorState)
    (hf : 1 ≤ f) (hc : s.frameCounter = 0) (hskip : s.frameSkipCount = f - 1) :
    OneInEveryF f d s := by
  have hf1 : (f - 1) + 1 = f := by omega
  have hblock := runCycles_skipBlock (f - 1) s d (by
    rw [hc, hskip]
    omega)
  have hmid : { s with frameCounter := s.frameCounter + (f - 1) } =
      { s with frameCounter := f - 1 } := by
    rw [hc]
    rw [Nat.zero_add]
  rw [hmid] at hblock
  set sMid := { s with frameCounter := f - 1 } with hsMid
  have hmod : (sMid.frameCounter + 1) % (sMid.frameSkipCount + 1) = 0 := by
    show ((f - 1) + 1) % (s.frameSkipCount + 1) = 0
    rw [hskip, hf1]
    exact Nat.mod_self f
  have hstep : runCycles sMid [some d] =
      .ok (procState sMid d, [procOutput sMid d]) := by
    simp [runCycles, processFrame_proc sMid d hmod]
  have hmain : runCycles s (List.replicate f (some d)) =
      .ok (procState sMid d, blockOuts f d s) := by
    conv_lhs => rw [← hf1, List.replicate_succ']
    rw [runCycles_append (List.replicate (f - 1) (some d)) [some d] s, hblock]
    dsimp only
    rw [hstep]
    rfl
  have hfilter : (blockOuts f d s).filter (fun o => o.processed) =
      [procOutput sMid d] := by
    unfold blockOuts
    rw [List.filter_append, List.filter_replicate_of_neg (by decide)]
    simp [List.filter_cons, procOutput]
  have hget : ∀ k, k + 1 < f → (blockOuts f d s)[k]? = some skippedOut := by
    intro k hk
    unfold blockOuts
    rw [List.getElem?_append_left (by
      simp only [List.length_replicate]
      omega)]
    exact List.getElem?_replicate_of_lt (by omega)
  have hgetLast : (blockOuts f d s)[f - 1]? = some (procOutput sMid d) := by
    unfold blockOuts
    rw [List.getElem?_append_right (by simp [List.length_replicate])]
    simp [List.length_replicate]
  have hskipStep : ∀ c, (c + 1) % f ≠ 0 →
      processFrame { s with frameCounter := c } (some d) =
        .ok ({ s with frameCounter := c + 1 }, skippedOut) := by
    intro c hcm
    exact processFrame_skip { s with frameCounter := c } d (by
      show (c + 1) % (s.frameSkipCount + 1) ≠ 0
      rw [hskip, hf1]
      exact hcm)
  refine ⟨hmain, ?_, hget, hgetLast, rfl, rfl, rfl, rfl, hskipStep⟩
  rw [hfilter]
  rfl

/-- A concrete detector state for the speed-up factor 2 of the entry point:
skip count 1, frame counter 0. -/
def exSkip : DetectorState :=
  { faces := [], facesSaved := [], frameCounter := 0, frameSkipCount := 1,
    focalLength := 800, realFaceWidth := 14, videoFramesWritten := 0 }

/-- Witness for C3 at the entry point's speed-up factor 2: of two captures
the first is dropped and the second fully processed. -/
theorem C3_one_in_every_f_witness :
    1 ≤ 2 ∧ exSkip.frameCounter = 0 ∧ exSkip.frameSkipCount = 2 - 1 ∧
    OneInEveryF 2 [rectA] exSkip :=
  ⟨by decide, rfl, rfl, C3_one_in_every_f 2 [rectA] exSkip (by decide) rfl rfl⟩

end FaceDetection
